/-
  Verification of the Zero-Trust Behavioral Login Risk Engine.

  Shallow embedding of the feature-capture pipeline from
  src/frontend/src/components/auth/LoginPage.jsx (calculateTypingSpeed,
  generateChallengeSequence, analyzePassword, detectKeyboardLanguage,
  detectBrowserTabs, zeroTrustMetrics) and of the client-side real-time
  merge from src/frontend/src/components/finsight-dashboard/
  RealtimeEventsPanel.jsx (loadEvents).

  The backend (Risk Scorer, Access Decision Policy, Event Store,
  Real-Time Delivery server side) is not part of the repository sources;
  where a claim depends on it, the definitions below are modelled from
  the spec and say so in their doc comments.

  JavaScript numbers are modelled as rationals (ℚ); keystroke timestamps
  are Date.now() millisecond values. JS null/undefined inputs are
  modelled as Option, with empty-string falsiness made explicit.
-/
import Mathlib

namespace ZeroTrust

/-- A keystroke record as pushed by handlePasswordKeyDown:
`{ key: e.key, timestamp: Date.now() }`. -/
structure Keystroke where
  key : String
  timestamp : ℚ
deriving DecidableEq, Repr

/-- The loginMetrics state object of LoginPage.jsx. The initial object has
no `browser_tab_count` key; the mount effect adds it via object spread
(modelled as an Option field), while the submit path reads the separate
`browser_tabs` field. -/
structure LoginMetrics where
  password_length : ℕ
  typing_start : Option ℚ
  typing_end : Option ℚ
  keystrokes : List Keystroke
  caps_lock_detected : Bool
  browser_tabs : ℕ
  keyboard_language : String
  browser_tab_count : Option ℤ
deriving Repr

/-- The initial useState value of loginMetrics in LoginPage.jsx. -/
def initialLoginMetrics : LoginMetrics :=
  { password_length := 0
    typing_start := none
    typing_end := none
    keystrokes := []
    caps_lock_detected := false
    browser_tabs := 1
    keyboard_language := "EN"
    browser_tab_count := none }

/-- JS indexing out of range yields undefined; this default stands for
`keystrokes[0]` / `keystrokes[keystrokes.length - 1]` on lists that the
guards make at least 2 long, so it is never actually consulted. -/
def defaultKeystroke : Keystroke := ⟨"", 0⟩

/-- calculateTypingSpeed from LoginPage.jsx lines 106-133.
With fewer than 2 keystrokes it tries the (typing_start, typing_end) pair
(JS truthiness of the timestamps modelled by Option presence), otherwise
it uses the first/last keystroke timestamps (the source re-checks the
length 2 guard once more on this path, hence the duplicated condition).
The JS consts are inlined: duration = (last − first) / 1000 seconds,
words = password.length / 5, wpm = words / duration * 60, clamped by
Math.max(30, Math.min(150, wpm)); every other path returns 60. -/
def calculateTypingSpeed (keystrokes : List Keystroke)
    (typing_start typing_end : Option ℚ) (passwordLength : ℕ) : ℚ :=
  if keystrokes.length < 2 then
    match typing_start, typing_end with
    | some ts, some te =>
        if 0 < (te - ts) / 1000 then
          max 30 (min 150 ((passwordLength : ℚ) / 5 / ((te - ts) / 1000) * 60))
        else 60
    | _, _ => 60
  else if keystrokes.length < 2 then 60
  else
    if ((keystrokes.getLastD defaultKeystroke).timestamp -
        (keystrokes.headD defaultKeystroke).timestamp) / 1000 ≤ 0 then 60
    else
      max 30 (min 150 ((passwordLength : ℚ) / 5 /
        (((keystrokes.getLastD defaultKeystroke).timestamp -
          (keystrokes.headD defaultKeystroke).timestamp) / 1000) * 60))

/-- The per-interval normalization of generateChallengeSequence:
`Math.min(Math.max(Math.floor(interval / 50), 1), 9)`. -/
def normalizeInterval (interval : ℚ) : ℤ :=
  min (max ⌊interval / 50⌋ 1) 9

/-- The interval loop of generateChallengeSequence (LoginPage.jsx lines
164-169): one normalized value per consecutive keystroke pair, in order. -/
def challengeIntervals : List Keystroke → List ℤ
  | a :: b :: rest =>
      normalizeInterval (b.timestamp - a.timestamp) :: challengeIntervals (b :: rest)
  | _ => []

/-- generateChallengeSequence from LoginPage.jsx lines 160-171: empty for
fewer than 2 keystrokes, otherwise `intervals.slice(0, 10).join("-")`. -/
def generateChallengeSequence (keystrokes : List Keystroke) : String :=
  if keystrokes.length < 2 then ""
  else String.intercalate "-" (((challengeIntervals keystrokes).take 10).map toString)

/-- The fixed punctuation class of the has_special regex in
analyzePassword. -/
def specialChars : List Char :=
  ['!', '@', '#', '$', '%', '^', '&', '*', '(', ')', '_', '+', '-', '=',
   '[', ']', '{', '}', '|', ';', ':', ',', '.', '<', '>', '?']

/-- The object returned by analyzePassword (LoginPage.jsx lines 135-148). -/
structure PasswordAnalysis where
  length : ℕ
  has_special : Bool
  has_numbers : Bool
  has_upper : Bool
  has_lower : Bool
deriving Repr

/-- analyzePassword from LoginPage.jsx: regex-class membership tests over
the password's character sequence ([0-9], [A-Z], [a-z] are exactly
Char.isDigit/isUpper/isLower). -/
def analyzePassword (password : String) : PasswordAnalysis :=
  { length := password.length
    has_special := password.data.any (fun c => specialChars.contains c)
    has_numbers := password.data.any Char.isDigit
    has_upper := password.data.any Char.isUpper
    has_lower := password.data.any Char.isLower }

/-- detectKeyboardLanguage from LoginPage.jsx lines 30-38:
`navigator.language || navigator.userLanguage || "en-US"` (the chain of
falsy fallbacks modelled as one Option with empty-string falsiness), then
primary subtag uppercased; the catch branch yields "EN". -/
def detectKeyboardLanguage (navLang : Option String) : String :=
  let lang := match navLang with
    | some s => if s = "" then "en-US" else s
    | none => "en-US"
  let langCode := String.mk ((lang.data.takeWhile (fun c => c != '-')).map Char.toUpper)
  if langCode = "EN" then "EN" else langCode

/-- detectBrowserTabs from LoginPage.jsx lines 40-55: the parsed
localStorage counter (none models a missing key or NaN parse) is returned
when positive, else 1. -/
def detectBrowserTabs (stored : Option ℤ) : ℤ :=
  match stored with
  | some count => if 0 < count then count else 1
  | none => 1

/-- The zeroTrustMetrics payload built in handleSubmit
(LoginPage.jsx lines 173-183). -/
structure ZeroTrustMetrics where
  password_length : ℕ
  used_special_characters : String
  keyboard_language : String
  login_attempts : ℕ
  was_capslock_on : String
  browser_tab_count : ℕ
  challenge_sequence : String
  timezone : String
  typing_speed_wpm : ℚ
deriving Repr

/-- The construction of zeroTrustMetrics in handleSubmit. `tzDetected`
models `Intl.DateTimeFormat().resolvedOptions().timeZone`, with
`|| "UTC+0"` as the falsy fallback. Note the payload reads
`loginMetrics.browser_tabs`, not the `browser_tab_count` key written by
the mount effect. -/
def zeroTrustMetrics (lm : LoginMetrics) (password : String)
    (loginAttempts : ℕ) (tzDetected : Option String) : ZeroTrustMetrics :=
  let pa := analyzePassword password
  { password_length := pa.length
    used_special_characters := if pa.has_special then "yes" else "no"
    keyboard_language := lm.keyboard_language
    login_attempts := loginAttempts
    was_capslock_on := if lm.caps_lock_detected then "yes" else "no"
    browser_tab_count := lm.browser_tabs
    challenge_sequence := generateChallengeSequence lm.keystrokes
    timezone := match tzDetected with
      | some s => if s = "" then "UTC+0" else s
      | none => "UTC+0"
    typing_speed_wpm :=
      calculateTypingSpeed lm.keystrokes lm.typing_start lm.typing_end password.length }

/-- The `loginAttemptsRef.current += 1` performed at the top of
handleSubmit before the payload is built. -/
def handleSubmitAttempts (prev : ℕ) : ℕ := prev + 1

/-- Discrete risk bucket of a RiskAssessment. -/
inductive RiskLevel where
  | low
  | medium
  | high
deriving DecidableEq, Repr

/-- Numeric rank giving the order low < medium < high. -/
def RiskLevel.rank : RiskLevel → ℕ
  | .low => 0
  | .medium => 1
  | .high => 2

/-- Modelled from the spec: the backend Risk Scorer is not in the
repository sources; the spec fixes the level thresholds explicitly:
score < 0.34 is low, 0.34 ≤ score < 0.7 is medium, 0.7 ≤ score is high. -/
def riskLevelOf (score : ℚ) : RiskLevel :=
  if score < 34 / 100 then .low
  else if score < 7 / 10 then .medium
  else .high

/-- Clamp of a score into the unit interval. -/
def clamp01 (x : ℚ) : ℚ := max 0 (min 1 x)

/-- Modelled from the spec: the near-1.0 floor the unusually-fast-typing
heuristic imposes on the final score. -/
def fastTypingFloor : ℚ := 95 / 100

/-- RiskAssessment per the spec data model: score in the unit interval, a
discrete level, and reason codes. -/
structure RiskAssessment where
  risk_score : ℚ
  risk_level : RiskLevel
  reasons : List String
deriving Repr

/-- Modelled from the spec: the backend scorer is not in the sources. One
(reason, score-floor) pair per triggered heuristic: typing_speed_wpm ≥ 150
forces near-1.0, missing special characters and excessive attempts impose
lesser floors. -/
def heuristicHits (p : ZeroTrustMetrics) : List (String × ℚ) :=
  (if 150 ≤ p.typing_speed_wpm then [("unusually_fast_typing", fastTypingFloor)] else []) ++
  (if p.used_special_characters = "no" then [("no_special_characters", 2 / 5)] else []) ++
  (if 5 ≤ p.login_attempts then [("excessive_login_attempts", 1 / 2)] else [])

/-- Modelled from the spec: heuristics act as a floor, never a ceiling, on
a base score, so each triggered heuristic lifts the score to at least its
floor weight. -/
def applyHeuristics (base : ℚ) (p : ZeroTrustMetrics) : ℚ :=
  (heuristicHits p).foldl (fun s h => max s h.2) base

/-- Modelled from the spec: the baseline heuristics-only score when no
heuristic triggers and no classifier is available. -/
def heuristicBaseline : ℚ := 1 / 10

/-- Modelled from the spec: the backend Risk Scorer. A classifier output,
when available, is clamped to the unit interval and lifted by the
heuristic floors; when the classifier is unavailable the score is
heuristics-only from the baseline and the assessment is tagged with the
heuristic_fallback reason. -/
def riskAssess (classifierScore : Option ℚ) (p : ZeroTrustMetrics) : RiskAssessment :=
  match classifierScore with
  | some c =>
      let base := clamp01 c
      let score := applyHeuristics base p
      { risk_score := score
        risk_level := riskLevelOf score
        reasons := (heuristicHits p).map Prod.fst }
  | none =>
      let score := applyHeuristics heuristicBaseline p
      { risk_score := score
        risk_level := riskLevelOf score
        reasons := "heuristic_fallback" :: (heuristicHits p).map Prod.fst }

/-- Outcome of the Access Decision Policy. -/
inductive Outcome where
  | allowed
  | denied
deriving DecidableEq, Repr

/-- Modelled from the spec: the stateless Access Decision Policy,
low and medium allow, high denies. -/
def accessDecision : RiskLevel → Outcome
  | .low => .allowed
  | .medium => .allowed
  | .high => .denied

/-- LoginEvent per the spec data model: surrogate id, username, creation
timestamp, the feature payload, the assessment and the outcome. -/
structure LoginEvent where
  id : ℕ
  username : String
  created_at : ℚ
  payload : ZeroTrustMetrics
  assessment : RiskAssessment
  outcome : Outcome
deriving Repr

/-- Modelled from the spec: the append-only Event Store. -/
structure EventStore where
  events : List LoginEvent
deriving Repr

/-- Modelled from the spec: record always appends a new row. -/
def record (st : EventStore) (e : LoginEvent) : EventStore :=
  ⟨st.events ++ [e]⟩

/-- Modelled from the spec: monotonic surrogate-id allocation. -/
def nextId (st : EventStore) : ℕ := st.events.length

/-- Modelled from the spec: the submit-login pipeline, capture having been
done client-side: score, decide, and append a LoginEvent with the
corresponding outcome on both the allow and the deny path. -/
def submitLogin (st : EventStore) (username : String)
    (classifierScore : Option ℚ) (p : ZeroTrustMetrics) (now : ℚ) :
    EventStore × RiskAssessment × Outcome :=
  let a := riskAssess classifierScore p
  let o := accessDecision a.risk_level
  (record st ⟨nextId st, username, now, p, a, o⟩, a, o)

/-- Modelled from the spec: the server side of Real-Time Delivery,
query_recent: events filtered to created_at strictly newer than the
cursor when one is supplied, in store (oldest-first) order, capped at
limit. -/
def queryRealtimeEvents (st : EventStore) (since : Option ℚ) (limit : ℕ) :
    List LoginEvent :=
  let base : List LoginEvent := match since with
    | some s => st.events.filter (fun e => decide (s < e.created_at))
    | none => st.events
  base.take limit

/-- Well-formedness of the Event Store used by delivery: ids strictly
increase and creation timestamps never decrease along the append order. -/
def StoreOrdered (st : EventStore) : Prop :=
  st.events.Pairwise (fun a b => a.id < b.id ∧ a.created_at ≤ b.created_at)

/-- The merge step of loadEvents in RealtimeEventsPanel.jsx lines 8-24:
only a non-empty response is merged; incoming items are filtered against
the ids already in the buffer, prepended, and the buffer is truncated to
the most recent 50. -/
def loadEventsStep (prev : List LoginEvent) (items : List LoginEvent) :
    List LoginEvent :=
  if 0 < items.length then
    ((items.filter (fun e => ! prev.any (fun q => q.id == e.id))) ++ prev).take (50 : ℕ)
  else prev

lemma clamp_wpm_bounds (w : ℚ) :
    30 ≤ max 30 (min 150 w) ∧ max 30 (min 150 w) ≤ 150 :=
  ⟨le_max_left _ _, max_le (by norm_num) (min_le_left _ _)⟩

lemma calculateTypingSpeed_shape (keystrokes : List Keystroke)
    (typing_start typing_end : Option ℚ) (passwordLength : ℕ) :
    (∃ w : ℚ, calculateTypingSpeed keystrokes typing_start typing_end passwordLength =
      max 30 (min 150 w)) ∨
    calculateTypingSpeed keystrokes typing_start typing_end passwordLength = 60 := by
  unfold calculateTypingSpeed
  split
  · rcases typing_start with _ | a <;> rcases typing_end with _ | b
    · exact Or.inr rfl
    · exact Or.inr rfl
    · exact Or.inr rfl
    · simp only []
      split
      · exact Or.inl ⟨_, rfl⟩
      · exact Or.inr rfl
  · split
    · exact Or.inr rfl
    · exact Or.inl ⟨_, rfl⟩

lemma calculateTypingSpeed_bounds (keystrokes : List Keystroke)
    (typing_start typing_end : Option ℚ) (passwordLength : ℕ) :
    30 ≤ calculateTypingSpeed keystrokes typing_start typing_end passwordLength ∧
      calculateTypingSpeed keystrokes typing_start typing_end passwordLength ≤ 150 := by
  rcases calculateTypingSpeed_shape keystrokes typing_start typing_end passwordLength with
    ⟨w, hw⟩ | h60
  · rw [hw]; exact clamp_wpm_bounds w
  · rw [h60]; norm_num

/-- C10: the typing-speed computation is total with no precondition: for
every keystroke list, every typing_start/typing_end combination and every
password length it returns a value in the interval [30, 150]. (Totality —
it never throws or yields NaN — is inherent in the embedding: the
function is a total Lean function over ℚ.) -/
theorem typing_speed_total_bounded (keystrokes : List Keystroke)
    (typing_start typing_end : Option ℚ) (passwordLength : ℕ) :
    30 ≤ calculateTypingSpeed keystrokes typing_start typing_end passwordLength ∧
      calculateTypingSpeed keystrokes typing_start typing_end passwordLength ≤ 150 :=
  calculateTypingSpeed_bounds keystrokes typing_start typing_end passwordLength

/-- C2: whenever the first-to-last keystroke duration is strictly
positive, the computed typing speed is exactly
(password_length / 5) / duration_seconds * 60 clamped to [30, 150], and
therefore lies in [30, 150]. -/
theorem typing_speed_formula (keystrokes : List Keystroke)
    (typing_start typing_end : Option ℚ) (passwordLength : ℕ)
    (hdur : 0 < ((keystrokes.getLastD defaultKeystroke).timestamp -
        (keystrokes.headD defaultKeystroke).timestamp) / 1000) :
    calculateTypingSpeed keystrokes typing_start typing_end passwordLength =
      max 30 (min 150 (((passwordLength : ℚ) / 5) /
        (((keystrokes.getLastD defaultKeystroke).timestamp -
          (keystrokes.headD defaultKeystroke).timestamp) / 1000) * 60)) ∧
    30 ≤ calculateTypingSpeed keystrokes typing_start typing_end passwordLength ∧
    calculateTypingSpeed keystrokes typing_start typing_end passwordLength ≤ 150 := by
  refine ⟨?_, calculateTypingSpeed_bounds _ _ _ _⟩
  match keystrokes with
  | [] => simp [List.getLastD, List.headD] at hdur
  | [k] => simp [List.getLastD, List.headD, sub_self] at hdur
  | k :: k2 :: rest =>
      have h2 : ¬ (k :: k2 :: rest).length < 2 := by simp
      unfold calculateTypingSpeed
      rw [if_neg h2, if_neg h2, if_neg (not_le.mpr hdur)]

/-- C4 (amended): the (typing_start, typing_end) fallback is consulted
only when fewer than 2 keystroke timestamps exist — then the same
words-per-duration formula applies when the pair is present with positive
duration, and 60 is returned when the pair is absent or degenerate; but
with 2 or more keystrokes and keystroke duration ≤ 0, the code returns
the default 60 directly without consulting the pair. -/
theorem typing_speed_fallback (keystrokes : List Keystroke)
    (typing_start typing_end : Option ℚ) (passwordLength : ℕ) :
    (keystrokes.length < 2 → ∀ a b : ℚ, typing_start = some a → typing_end = some b →
      0 < (b - a) / 1000 →
      calculateTypingSpeed keystrokes typing_start typing_end passwordLength =
        max 30 (min 150 (((passwordLength : ℚ) / 5) / ((b - a) / 1000) * 60))) ∧
    (keystrokes.length < 2 →
      (∀ a b : ℚ, typing_start = some a → typing_end = some b → (b - a) / 1000 ≤ 0) →
      calculateTypingSpeed keystrokes typing_start typing_end passwordLength = 60) ∧
    (2 ≤ keystrokes.length →
      ((keystrokes.getLastD defaultKeystroke).timestamp -
        (keystrokes.headD defaultKeystroke).timestamp) / 1000 ≤ 0 →
      calculateTypingSpeed keystrokes typing_start typing_end passwordLength = 60) := by
  refine ⟨?_, ?_, ?_⟩
  · intro hlt a b ha hb hpos
    subst ha; subst hb
    unfold calculateTypingSpeed
    rw [if_pos hlt]
    simp only []
    rw [if_pos hpos]
  · intro hlt hdeg
    unfold calculateTypingSpeed
    rw [if_pos hlt]
    cases typing_start with
    | none => rfl
    | some a =>
        cases typing_end with
        | none => rfl
        | some b =>
            simp only []
            rw [if_neg (not_lt.mpr (hdeg a b rfl rfl))]
  · intro hge hdur
    have h2 : ¬ keystrokes.length < 2 := not_lt.mpr hge
    unfold calculateTypingSpeed
    rw [if_neg h2, if_neg h2, if_pos hdur]

/-- Counterexample to C4 as stated: with two keystrokes at the same
timestamp (keystroke duration 0 ≤ 0) and an available
(typing_start, typing_end) = (0, 1000) pair over a 25-character password,
the claimed fallback would yield the pair formula's value 150, but the
code returns 60. -/
theorem typing_speed_fallback_counterexample :
    calculateTypingSpeed [⟨"a", 100⟩, ⟨"b", 100⟩] (some 0) (some 1000) 25 = 60 ∧
    max 30 (min 150 (((25 : ℚ) / 5) / (((1000 : ℚ) - 0) / 1000) * 60)) = 150 ∧
    (60 : ℚ) ≠ 150 := by
  refine ⟨by norm_num [calculateTypingSpeed], by norm_num, by norm_num⟩

/-- Witness for C2 at the spec's concrete scenario: two keystrokes 600 ms
apart and a 10-character password give duration 0.6 s, words = 2, raw
wpm = 200, clamped to 150. -/
theorem typing_speed_formula_witness :
    0 < ((([⟨"a", 0⟩, ⟨"b", 600⟩] : List Keystroke).getLastD defaultKeystroke).timestamp -
        (([⟨"a", 0⟩, ⟨"b", 600⟩] : List Keystroke).headD defaultKeystroke).timestamp) / 1000 ∧
    calculateTypingSpeed [⟨"a", 0⟩, ⟨"b", 600⟩] none none 10 = 150 := by
  have hdur : 0 < ((([⟨"a", 0⟩, ⟨"b", 600⟩] : List Keystroke).getLastD defaultKeystroke).timestamp -
      (([⟨"a", 0⟩, ⟨"b", 600⟩] : List Keystroke).headD defaultKeystroke).timestamp) / 1000 := by
    norm_num [List.getLastD]
  refine ⟨hdur, ?_⟩
  rw [(typing_speed_formula [⟨"a", 0⟩, ⟨"b", 600⟩] none none 10 hdur).1]
  norm_num [List.getLastD]

/-- Witness for C4 (amended) at concrete inputs: a single keystroke with
pair (0, 3000) and a 10-character password falls back to the pair formula
(duration 3 s, raw wpm 40); two same-timestamp keystrokes return 60. -/
theorem typing_speed_fallback_witness :
    (([⟨"a", 0⟩] : List Keystroke).length < 2 ∧
      calculateTypingSpeed [⟨"a", 0⟩] (some 0) (some 3000) 10 =
        max 30 (min 150 (((10 : ℚ) / 5) / (((3000 : ℚ) - 0) / 1000) * 60))) ∧
    (2 ≤ ([⟨"a", 100⟩, ⟨"b", 100⟩] : List Keystroke).length ∧
      calculateTypingSpeed [⟨"a", 100⟩, ⟨"b", 100⟩] none none 10 = 60) := by
  constructor
  · refine ⟨by norm_num, ?_⟩
    exact (typing_speed_fallback [⟨"a", 0⟩] (some 0) (some 3000) 10).1
      (by norm_num) 0 3000 rfl rfl (by norm_num)
  · refine ⟨by norm_num, ?_⟩
    exact (typing_speed_fallback [⟨"a", 100⟩, ⟨"b", 100⟩] none none 10).2.2
      (by norm_num) (by norm_num [List.getLastD])

lemma normalizeInterval_bounds (i : ℚ) :
    1 ≤ normalizeInterval i ∧ normalizeInterval i ≤ 9 :=
  ⟨le_min (le_max_right _ _) (by norm_num), min_le_right _ _⟩

lemma challengeIntervals_bounds :
    ∀ (ks : List Keystroke) (t : ℤ), t ∈ challengeIntervals ks → 1 ≤ t ∧ t ≤ 9
  | a :: b :: rest, t, ht => by
      rw [challengeIntervals] at ht
      rcases List.mem_cons.mp ht with h | h
      · subst h; exact normalizeInterval_bounds _
      · exact challengeIntervals_bounds (b :: rest) t h
  | [], _, ht => by simp [challengeIntervals] at ht
  | [a], _, ht => by simp [challengeIntervals] at ht

/-- C3: every token of the challenge sequence is in [1, 9] and at most 10
tokens are kept; the rendered string is the dash-separated join of
clamp(floor(interval_ms / 50), 1, 9) over consecutive timestamp pairs
truncated to the first 10 tokens, and is empty when fewer than 2
keystrokes were observed; timestamps [0, 150, 300, 450, 600] ms yield
"3-3-3-3". -/
theorem challenge_sequence_contract (ks : List Keystroke) :
    (∀ t ∈ (challengeIntervals ks).take 10, 1 ≤ t ∧ t ≤ 9) ∧
    ((challengeIntervals ks).take 10).length ≤ 10 ∧
    (ks.length < 2 → generateChallengeSequence ks = "") ∧
    (2 ≤ ks.length → generateChallengeSequence ks =
      String.intercalate "-" (((challengeIntervals ks).take 10).map toString)) ∧
    generateChallengeSequence [⟨"a", 0⟩, ⟨"b", 150⟩, ⟨"c", 300⟩, ⟨"d", 450⟩, ⟨"e", 600⟩] =
      "3-3-3-3" := by
  refine ⟨?_, ?_, ?_, ?_, ?_⟩
  · intro t ht
    exact challengeIntervals_bounds ks t ((List.take_sublist 10 _).mem ht)
  · exact List.length_take_le 10 _
  · intro h
    unfold generateChallengeSequence
    rw [if_pos h]
  · intro h
    unfold generateChallengeSequence
    rw [if_neg (not_lt.mpr h)]
  · norm_num [generateChallengeSequence, challengeIntervals, normalizeInterval]
    rfl

/-- Witness for C3 at concrete inputs: the empty keystroke list yields the
empty string, and the spec's 5-timestamp list has length 5 ≥ 2 with a
member token equal to 3 lying in [1, 9]. -/
theorem challenge_sequence_witness :
    (([] : List Keystroke).length < 2 ∧ generateChallengeSequence [] = "") ∧
    (2 ≤ ([⟨"a", 0⟩, ⟨"b", 150⟩] : List Keystroke).length ∧
      generateChallengeSequence [⟨"a", 0⟩, ⟨"b", 150⟩] =
        String.intercalate "-"
          (((challengeIntervals [⟨"a", 0⟩, ⟨"b", 150⟩]).take 10).map toString)) ∧
    (1 ≤ (3 : ℤ) ∧ (3 : ℤ) ≤ 9) := by
  refine ⟨⟨by norm_num, (challenge_sequence_contract []).2.2.1 (by norm_num)⟩,
    ⟨by norm_num, (challenge_sequence_contract [⟨"a", 0⟩, ⟨"b", 150⟩]).2.2.2.1 (by norm_num)⟩,
    (challenge_sequence_contract [⟨"a", 0⟩, ⟨"b", 150⟩]).1 3 ?_⟩
  norm_num [challengeIntervals, normalizeInterval]

/-- C5: the score-to-level mapping is the fixed threshold function and is
monotonic non-decreasing along low < medium < high for scores in [0, 1]. -/
theorem risk_level_thresholds_monotone (s1 s2 : ℚ)
    (h0 : 0 ≤ s1) (h1 : s2 ≤ 1) (hle : s1 ≤ s2) :
    (∀ s : ℚ, riskLevelOf s =
      if s < 34 / 100 then RiskLevel.low
      else if s < 7 / 10 then RiskLevel.medium
      else RiskLevel.high) ∧
    (riskLevelOf s1).rank ≤ (riskLevelOf s2).rank := by
  refine ⟨fun s => rfl, ?_⟩
  unfold riskLevelOf
  by_cases ha : s1 < 34 / 100 <;> by_cases hb : s2 < 34 / 100 <;>
    by_cases hc : s1 < 7 / 10 <;> by_cases hd : s2 < 7 / 10 <;>
    simp only [ha, hb, hc, hd, if_true, if_false, ite_true, ite_false,
      RiskLevel.rank] <;>
    linarith

/-- Witness for C5 at concrete scores 0.2 ≤ 0.5 within [0, 1]. -/
theorem risk_level_thresholds_monotone_witness :
    (0 : ℚ) ≤ 2 / 10 ∧ (5 / 10 : ℚ) ≤ 1 ∧ (2 / 10 : ℚ) ≤ 5 / 10 ∧
    (riskLevelOf (2 / 10)).rank ≤ (riskLevelOf (5 / 10)).rank :=
  ⟨by norm_num, by norm_num, by norm_num,
    (risk_level_thresholds_monotone (2 / 10) (5 / 10)
      (by norm_num) (by norm_num) (by norm_num)).2⟩

lemma mem_ite_nil {α : Type} {c : Prop} [Decidable c] {l : List α} {x : α}
    (hx : x ∈ (if c then l else [])) : x ∈ l := by
  split_ifs at hx with h
  · exact hx
  · exact absurd hx (List.not_mem_nil x)

lemma foldl_max_le_init (l : List (String × ℚ)) (b : ℚ) :
    b ≤ l.foldl (fun s h => max s h.2) b := by
  induction l generalizing b with
  | nil => exact le_refl b
  | cons x xs ih =>
      exact le_trans (le_max_left b x.2) (ih (max b x.2))

lemma foldl_max_of_mem {l : List (String × ℚ)} {r : String} {w : ℚ}
    (hm : (r, w) ∈ l) (b : ℚ) : w ≤ l.foldl (fun s h => max s h.2) b := by
  induction l generalizing b with
  | nil => cases hm
  | cons x xs ih =>
      rcases List.mem_cons.mp hm with h | h
      · have : w ≤ max b x.2 := by rw [← h]; exact le_max_right _ _
        exact le_trans this (foldl_max_le_init xs _)
      · exact ih h _

lemma foldl_max_le {l : List (String × ℚ)} {b c : ℚ}
    (hb : b ≤ c) (hl : ∀ x ∈ l, x.2 ≤ c) :
    l.foldl (fun s h => max s h.2) b ≤ c := by
  induction l generalizing b with
  | nil => exact hb
  | cons x xs ih =>
      exact ih (max_le hb (hl x (List.mem_cons_self x xs)))
        (fun y hy => hl y (List.mem_cons_of_mem x hy))

lemma heuristicHits_weight_le_one (p : ZeroTrustMetrics) :
    ∀ x ∈ heuristicHits p, x.2 ≤ 1 := by
  intro x hx
  unfold heuristicHits at hx
  rcases List.mem_append.mp hx with hx' | hx'
  · rcases List.mem_append.mp hx' with hx'' | hx''
    · rcases List.mem_singleton.mp (mem_ite_nil hx'') with rfl
      norm_num [fastTypingFloor]
    · rcases List.mem_singleton.mp (mem_ite_nil hx'') with rfl
      norm_num
  · rcases List.mem_singleton.mp (mem_ite_nil hx') with rfl
    norm_num

lemma fast_typing_hit {p : ZeroTrustMetrics} (h : 150 ≤ p.typing_speed_wpm) :
    ("unusually_fast_typing", fastTypingFloor) ∈ heuristicHits p := by
  unfold heuristicHits
  refine List.mem_append.mpr (Or.inl (List.mem_append.mpr (Or.inl ?_)))
  rw [if_pos h]
  exact List.mem_singleton.mpr rfl

lemma riskLevelOf_high {s : ℚ} (h : 7 / 10 ≤ s) : riskLevelOf s = RiskLevel.high := by
  unfold riskLevelOf
  rw [if_neg (not_lt.mpr (by linarith)), if_neg (not_lt.mpr h)]

/-- C6: typing_speed_wpm ≥ 150 forces risk_level = high for every
classifier output (including none), puts unusually_fast_typing among the
reasons, and the heuristic adjustments never lower the score below the
clamped classifier base score. -/
theorem fast_typing_forces_high (p : ZeroTrustMetrics)
    (h : 150 ≤ p.typing_speed_wpm) :
    (∀ c : Option ℚ, (riskAssess c p).risk_level = RiskLevel.high ∧
      "unusually_fast_typing" ∈ (riskAssess c p).reasons) ∧
    (∀ (c : ℚ) (q : ZeroTrustMetrics),
      clamp01 c ≤ (riskAssess (some c) q).risk_score) := by
  constructor
  · intro c
    have hscore : ∀ b : ℚ, fastTypingFloor ≤ applyHeuristics b p :=
      fun b => foldl_max_of_mem (fast_typing_hit h) b
    have hmem : "unusually_fast_typing" ∈ (heuristicHits p).map Prod.fst :=
      List.mem_map_of_mem Prod.fst (fast_typing_hit h)
    cases c with
    | some c =>
        refine ⟨riskLevelOf_high ?_, hmem⟩
        have h2 := hscore (clamp01 c)
        unfold fastTypingFloor at h2
        show 7 / 10 ≤ applyHeuristics (clamp01 c) p
        linarith
    | none =>
        refine ⟨riskLevelOf_high ?_, List.mem_cons_of_mem _ hmem⟩
        have h2 := hscore heuristicBaseline
        unfold fastTypingFloor at h2
        show 7 / 10 ≤ applyHeuristics heuristicBaseline p
        linarith
  · intro c q
    exact foldl_max_le_init (heuristicHits q) (clamp01 c)

/-- Witness for C6: a payload with pre-clamp typing_speed_wpm = 160. -/
def fastTypingPayload : ZeroTrustMetrics :=
  { password_length := 10
    used_special_characters := "no"
    keyboard_language := "EN"
    login_attempts := 1
    was_capslock_on := "no"
    browser_tab_count := 1
    challenge_sequence := ""
    timezone := "UTC+0"
    typing_speed_wpm := 160 }

/-- Witness for C6 at the spec's concrete scenario: typing_speed_wpm = 160
with a classifier output of 0.1 still yields a high assessment tagged
unusually_fast_typing, and the score is not below the clamped base. -/
theorem fast_typing_forces_high_witness :
    (150 : ℚ) ≤ fastTypingPayload.typing_speed_wpm ∧
    (riskAssess (some (1 / 10)) fastTypingPayload).risk_level = RiskLevel.high ∧
    "unusually_fast_typing" ∈ (riskAssess (some (1 / 10)) fastTypingPayload).reasons ∧
    clamp01 (1 / 10) ≤ (riskAssess (some (1 / 10)) fastTypingPayload).risk_score := by
  have h : (150 : ℚ) ≤ fastTypingPayload.typing_speed_wpm := by
    norm_num [fastTypingPayload]
  have hmain := fast_typing_forces_high fastTypingPayload h
  exact ⟨h, (hmain.1 (some (1 / 10))).1, (hmain.1 (some (1 / 10))).2,
    hmain.2 (1 / 10) fastTypingPayload⟩

/-- C7: with the classifier unavailable the assessment is still produced
(the scorer is a total function), its score is within [0, 1], and the
reasons contain heuristic_fallback. -/
theorem heuristic_fallback_contract (p : ZeroTrustMetrics) :
    0 ≤ (riskAssess none p).risk_score ∧
    (riskAssess none p).risk_score ≤ 1 ∧
    "heuristic_fallback" ∈ (riskAssess none p).reasons := by
  refine ⟨?_, ?_, ?_⟩
  · have h1 : heuristicBaseline ≤ applyHeuristics heuristicBaseline p :=
      foldl_max_le_init _ _
    have h0 : (0 : ℚ) ≤ heuristicBaseline := by norm_num [heuristicBaseline]
    show (0 : ℚ) ≤ applyHeuristics heuristicBaseline p
    linarith
  · show applyHeuristics heuristicBaseline p ≤ 1
    exact foldl_max_le (by norm_num [heuristicBaseline]) (heuristicHits_weight_le_one p)
  · exact List.mem_cons_self _ _

/-- C1: every submitted attempt, allowed or denied, appends exactly one
LoginEvent to the Event Store, and that event carries the produced
assessment and the corresponding outcome — no attempt is scored without
an audit record. -/
theorem audit_event_always_written (st : EventStore) (username : String)
    (classifierScore : Option ℚ) (p : ZeroTrustMetrics) (now : ℚ) :
    ∃ e : LoginEvent,
      (submitLogin st username classifierScore p now).1.events = st.events ++ [e] ∧
      e.assessment = (submitLogin st username classifierScore p now).2.1 ∧
      e.outcome = (submitLogin st username classifierScore p now).2.2 ∧
      (submitLogin st username classifierScore p now).1.events.length =
        st.events.length + 1 :=
  ⟨⟨nextId st, username, now, p, riskAssess classifierScore p,
      accessDecision (riskAssess classifierScore p).risk_level⟩,
    rfl, rfl, rfl, by simp [submitLogin, record]⟩

lemma loadEventsStep_length {prev : List LoginEvent} (items : List LoginEvent)
    (hlen : prev.length ≤ 50) : (loadEventsStep prev items).length ≤ 50 := by
  unfold loadEventsStep
  split
  · exact List.length_take_le _ _
  · exact hlen

lemma loadEventsStep_nodup {prev items : List LoginEvent}
    (hprev : prev.Pairwise (fun a b => a.id ≠ b.id))
    (hitems : items.Pairwise (fun a b => a.id ≠ b.id)) :
    (loadEventsStep prev items).Pairwise (fun a b => a.id ≠ b.id) := by
  unfold loadEventsStep
  split
  · refine List.Pairwise.sublist (List.take_sublist _ _) ?_
    rw [List.pairwise_append]
    refine ⟨List.Pairwise.sublist (List.filter_sublist _) hitems, hprev, ?_⟩
    intro a ha b hb
    have h1 := (List.mem_filter.mp ha).2
    simp only [Bool.not_eq_true', List.any_eq_false, beq_iff_eq] at h1
    exact fun hEq => h1 b hb hEq.symm
  · exact hprev

/-- C8: real-time delivery returns only events strictly newer than the
cursor, in store (oldest-first) order with strictly increasing ids, at
most limit of them; and the client merge step of loadEvents preserves the
buffer invariant of pairwise-distinct ids and at most 50 entries. -/
theorem realtime_delivery_contract (st : EventStore) (s : ℚ) (limit : ℕ)
    (prev : List LoginEvent) (hst : StoreOrdered st)
    (hprev : prev.Pairwise (fun a b => a.id ≠ b.id))
    (hlen : prev.length ≤ 50) :
    (∀ e ∈ queryRealtimeEvents st (some s) limit, s < e.created_at) ∧
    (queryRealtimeEvents st (some s) limit).length ≤ limit ∧
    (queryRealtimeEvents st (some s) limit).Pairwise
      (fun a b => a.id < b.id ∧ a.created_at ≤ b.created_at) ∧
    (loadEventsStep prev (queryRealtimeEvents st (some s) limit)).Pairwise
      (fun a b => a.id ≠ b.id) ∧
    (loadEventsStep prev (queryRealtimeEvents st (some s) limit)).length ≤ 50 := by
  have hsub : List.Sublist (queryRealtimeEvents st (some s) limit) st.events := by
    unfold queryRealtimeEvents
    exact (List.take_sublist _ _).trans (List.filter_sublist _)
  have hpair : (queryRealtimeEvents st (some s) limit).Pairwise
      (fun a b => a.id < b.id ∧ a.created_at ≤ b.created_at) :=
    List.Pairwise.sublist hsub hst
  refine ⟨?_, ?_, hpair, ?_, loadEventsStep_length _ hlen⟩
  · intro e he
    have he' : e ∈ st.events.filter (fun e => decide (s < e.created_at)) := by
      unfold queryRealtimeEvents at he
      exact (List.take_sublist _ _).mem he
    exact of_decide_eq_true (List.mem_filter.mp he').2
  · exact List.length_take_le _ _
  · exact loadEventsStep_nodup hprev (hpair.imp (fun h => Nat.ne_of_lt h.1))

/-- A neutral concrete payload used to populate concrete LoginEvents. -/
def samplePayload : ZeroTrustMetrics :=
  { password_length := 8
    used_special_characters := "yes"
    keyboard_language := "EN"
    login_attempts := 1
    was_capslock_on := "no"
    browser_tab_count := 1
    challenge_sequence := "3-3-3-3"
    timezone := "UTC+0"
    typing_speed_wpm := 60 }

/-- A first concrete stored login event (id 0, created at 100). -/
def sampleEvent1 : LoginEvent :=
  ⟨0, "alice", 100, samplePayload, ⟨1 / 10, RiskLevel.low, []⟩, Outcome.allowed⟩

/-- A second concrete stored login event (id 1, created at 200). -/
def sampleEvent2 : LoginEvent :=
  ⟨1, "bob", 200, samplePayload, ⟨1 / 10, RiskLevel.low, []⟩, Outcome.allowed⟩

/-- Witness for C8 at a concrete two-event store polled from an empty
client buffer with cursor 0 and limit 20. -/
theorem realtime_delivery_contract_witness :
    StoreOrdered ⟨[sampleEvent1, sampleEvent2]⟩ ∧
    ([] : List LoginEvent).Pairwise (fun a b => a.id ≠ b.id) ∧
    ([] : List LoginEvent).length ≤ 50 ∧
    (queryRealtimeEvents ⟨[sampleEvent1, sampleEvent2]⟩ (some 0) 20).length ≤ 20 ∧
    (loadEventsStep []
      (queryRealtimeEvents ⟨[sampleEvent1, sampleEvent2]⟩ (some 0) 20)).length ≤ 50 := by
  have hst : StoreOrdered ⟨[sampleEvent1, sampleEvent2]⟩ := by
    norm_num [StoreOrdered, List.pairwise_cons, sampleEvent1, sampleEvent2]
  have h := realtime_delivery_contract ⟨[sampleEvent1, sampleEvent2]⟩ 0 20 []
    hst List.Pairwise.nil (by norm_num)
  exact ⟨hst, List.Pairwise.nil, by norm_num, h.2.1, h.2.2.2.2⟩

/-- Counterexample to C9 as stated: on a concrete submission the payload's
used_special_characters and was_capslock_on are the strings "yes"/"no"
rather than booleans, and the timezone detection fallback is the string
"UTC+0", not the claimed "UTC". -/
theorem feature_payload_counterexample :
    (zeroTrustMetrics initialLoginMetrics "abc" 1 none).timezone = "UTC+0" ∧
    "UTC+0" ≠ "UTC" ∧
    (zeroTrustMetrics initialLoginMetrics "abc" 1 none).used_special_characters = "no" ∧
    (zeroTrustMetrics initialLoginMetrics "abc!" 1 none).used_special_characters = "yes" ∧
    (zeroTrustMetrics initialLoginMetrics "abc" 1 none).was_capslock_on = "no" :=
  ⟨rfl, by decide, rfl, rfl, rfl⟩

/-- C9 (amended): every submission produces a complete payload in which
used_special_characters and was_capslock_on are the strings "yes"/"no"
encoding the detected booleans, browser_tab_count copies the
loginMetrics.browser_tabs field whose initial value is 1, the detection
defaults are keyboard_language "EN", tab count 1 and timezone "UTC+0",
login_attempts is the per-session counter that handleSubmit strictly
increases, password_length is the password's length, and typing_speed_wpm
is clamped into [30, 150]. -/
theorem feature_payload_shape (lm : LoginMetrics) (password : String)
    (attempts : ℕ) (tz : Option String) :
    ((zeroTrustMetrics lm password attempts tz).used_special_characters = "yes" ∨
      (zeroTrustMetrics lm password attempts tz).used_special_characters = "no") ∧
    ((zeroTrustMetrics lm password attempts tz).was_capslock_on = "yes" ∨
      (zeroTrustMetrics lm password attempts tz).was_capslock_on = "no") ∧
    (zeroTrustMetrics lm password attempts tz).browser_tab_count = lm.browser_tabs ∧
    initialLoginMetrics.browser_tabs = 1 ∧
    (zeroTrustMetrics lm password attempts none).timezone = "UTC+0" ∧
    detectKeyboardLanguage none = "EN" ∧
    detectBrowserTabs none = 1 ∧
    (zeroTrustMetrics lm password attempts tz).login_attempts = attempts ∧
    attempts < handleSubmitAttempts attempts ∧
    (zeroTrustMetrics lm password attempts tz).password_length = password.length ∧
    30 ≤ (zeroTrustMetrics lm password attempts tz).typing_speed_wpm ∧
    (zeroTrustMetrics lm password attempts tz).typing_speed_wpm ≤ 150 := by
  refine ⟨?_, ?_, rfl, rfl, rfl, rfl, rfl, rfl, Nat.lt_succ_self attempts, rfl, ?_, ?_⟩
  · cases h : (analyzePassword password).has_special
    · exact Or.inr (by simp [zeroTrustMetrics, h])
    · exact Or.inl (by simp [zeroTrustMetrics, h])
  · cases h : lm.caps_lock_detected
    · exact Or.inr (by simp [zeroTrustMetrics, h])
    · exact Or.inl (by simp [zeroTrustMetrics, h])
  · exact (calculateTypingSpeed_bounds _ _ _ _).1
  · exact (calculateTypingSpeed_bounds _ _ _ _).2

end ZeroTrust
